import Mathlib

/-!
Shallow embedding of the `ibc-controller` CosmWasm contract
(`contracts/controller/src/contract.rs` and the `ibc_controller_package`
message types) together with proofs of functional properties of its
entry points.

Storage is modelled explicitly: each cw-storage-plus `Item`/`Map` used by
the contract becomes a field of the `Storage` structure, and each entry
point becomes a function `Storage → ... → Except ContractError (Storage × Response)`.
An `Except.error` result models a transaction whose writes the host
discards, which is the CosmWasm invocation semantics (all-or-nothing
commit per entry-point call).
-/

namespace IbcController

/-- CosmWasm `Timestamp`: nanoseconds since epoch. -/
structure Timestamp where
  nanos : Nat
deriving DecidableEq, Repr

/-- `Timestamp::plus_seconds`. -/
def Timestamp.plusSeconds (t : Timestamp) (s : Nat) : Timestamp :=
  ⟨t.nanos + s * 1000000000⟩

/-- `Timestamp::seconds`: whole seconds since epoch. -/
def Timestamp.seconds (t : Timestamp) : Nat :=
  t.nanos / 1000000000

/-- The part of cosmwasm `Env` the contract reads: the block time. -/
structure Env where
  blockTime : Timestamp
deriving DecidableEq, Repr

/-- The part of cosmwasm `MessageInfo` the contract reads: the sender. -/
structure MessageInfo where
  sender : String
deriving DecidableEq, Repr

/-- cosmwasm `StdError`, restricted to the variants this contract can
produce: `not_found` from a missing `Item`/`Map` entry, `generic_err`
from the ownership helpers, and invalid-address from `addr_validate`. -/
inductive StdError where
  | notFound (what : String)
  | genericErr (msg : String)
  | invalidAddress (addr : String)
deriving DecidableEq, Repr

/-- Modelled from the spec: the contract's `ContractError` enum
(`contracts/controller/src/error.rs` is not in the provided sources; the
variants are those constructed in `contract.rs` and named by the spec's
error taxonomy: `InvalidTimeout` = `TimeoutLimitsError`, `Unauthorized`,
`DuplicateProposal` = `ProposalAlreadyExists`, `UnsupportedMigration` =
`MigrationError`, plus wrapped `StdError`s). -/
inductive ContractError where
  | std (e : StdError)
  | unauthorized
  | timeoutLimitsError
  | proposalAlreadyExists (proposalId : Nat)
  | migrationError
deriving DecidableEq, Repr

/-- An opaque remote command inside a proposal
(`astroport_governance::assembly::ProposalMessage`): an order index and
an opaque inner cosmos message, which the controller never inspects.
The inner message is represented by its serialized form. -/
structure ProposalMessage where
  order : Nat
  msg : String
deriving DecidableEq, Repr

/-- `ibc_controller_package::IbcProposal`: the wire payload
`{ id, messages }` (`astro_ibc/src/controller.rs`). -/
structure IbcProposal where
  id : Nat
  messages : List ProposalMessage
deriving DecidableEq, Repr

/-- Modelled from the spec: the proposal lifecycle state
(`astroport_governance::assembly::ProposalStatus` as used here; the
spec's closed variant is in-progress / succeed / failed, matching the
package's `IbcProposalState` in `astro_ibc/src/controller.rs`). -/
inductive ProposalStatus where
  | inProgress
  | succeed
  | failed
deriving DecidableEq, Repr

/-- `Config` stored by the contract (`state.rs` declaration, fields as
read and written in `contract.rs`): owner identity and packet timeout in
seconds. -/
structure Config where
  owner : String
  timeout : Nat
deriving DecidableEq, Repr

/-- Modelled from the spec: the ownership-transfer proposal record
stored by `propose_new_owner` — candidate identity and expiry time in
seconds (spec section on the ownership transfer protocol). -/
structure OwnershipProposal where
  owner : String
  ttl : Nat
deriving DecidableEq, Repr

/-- cw2 version tag `{ contract, version }`. -/
structure ContractVersion where
  contract : String
  version : String
deriving DecidableEq, Repr

/-- A cosmos message emitted by the contract. The only one this contract
builds is `CosmosMsg::Ibc(IbcMsg::SendPacket { .. })`; the packet data
is carried in structured form (`to_binary` of `IbcProposal` is an
injective serialization, so equality of payloads is equality of
`IbcProposal` values). -/
inductive CosmosMsg where
  | ibcSendPacket (channelId : String) (data : IbcProposal) (timeout : Timestamp)
deriving DecidableEq, Repr

/-- cosmwasm `Response`: submessages to dispatch and observable
attributes. -/
structure Response where
  messages : List CosmosMsg
  attributes : List (String × String)
deriving DecidableEq, Repr

/-- `Response::new()`. -/
def Response.new : Response := ⟨[], []⟩

/-- `Response::add_message`. -/
def Response.addMessage (r : Response) (m : CosmosMsg) : Response :=
  { r with messages := r.messages ++ [m] }

/-- `Response.add_attribute`. -/
def Response.addAttribute (r : Response) (k v : String) : Response :=
  { r with attributes := r.attributes ++ [(k, v)] }

/-- The contract's durable storage: one field per cw-storage-plus item
declared in `state.rs` and used by `contract.rs`, plus the cw2 version
tag. The proposal-state map is an association list keyed by proposal
id. -/
structure Storage where
  contractVersion : Option ContractVersion
  config : Option Config
  proposalState : List (Nat × ProposalStatus)
  ownershipProposal : Option OwnershipProposal
  lastError : Option String
deriving DecidableEq, Repr

/-- `Map::has` on `PROPOSAL_STATE`. -/
def Storage.proposalStateHas (s : Storage) (id : Nat) : Bool :=
  (s.proposalState.lookup id).isSome

/-- `Map::save` on `PROPOSAL_STATE`: insert or overwrite the entry. -/
def Storage.proposalStateSave (s : Storage) (id : Nat) (st : ProposalStatus) :
    Storage :=
  { s with proposalState := (id, st) :: s.proposalState.filter (fun p => p.1 ≠ id) }

/-- `Map::load` on `PROPOSAL_STATE`: fails with `not_found` if absent. -/
def Storage.proposalStateLoad (s : Storage) (id : Nat) :
    Except StdError ProposalStatus :=
  match s.proposalState.lookup id with
  | some st => .ok st
  | none => .error (.notFound "ProposalStatus")

/-- cw2 `set_contract_version`. -/
def Storage.setContractVersion (s : Storage) (n v : String) : Storage :=
  { s with contractVersion := some ⟨n, v⟩ }

/-- cw2 `get_contract_version`: fails with `not_found` if the tag was
never written. -/
def Storage.getContractVersion (s : Storage) :
    Except StdError ContractVersion :=
  match s.contractVersion with
  | some cv => .ok cv
  | none => .error (.notFound "ContractVersion")

/-- `CONFIG.load`. -/
def Storage.configLoad (s : Storage) : Except StdError Config :=
  match s.config with
  | some c => .ok c
  | none => .error (.notFound "Config")

/-- `LAST_ERROR.load`: fails with `not_found` when no error record has
ever been stored (cw-storage-plus `Item::load` semantics). -/
def Storage.lastErrorLoad (s : Storage) : Except StdError String :=
  match s.lastError with
  | some e => .ok e
  | none => .error (.notFound "LastError")

/-- The host api's `addr_validate`: the contract only threads it
through, so it is a parameter — any address-validation function of this
shape. -/
def Api : Type := String → Except StdError String

/-- `env!(CARGO_PKG_NAME)` for the controller crate. Modelled from the
spec: the crate manifest is not in the provided sources; the migration
table keys the supported upgrade on the stored name `ibc-controller`,
which cw2 stores from this constant at instantiation. -/
def CONTRACT_NAME : String := "ibc-controller"

/-- `env!(CARGO_PKG_VERSION)` for the controller crate. Modelled from
the spec: the crate manifest is not in the provided sources; the spec
states the supported upgrade targets a version newer than `0.1.0` and
that re-running migration against an already-current tag is rejected,
so the current version is a fixed string different from `0.1.0`. -/
def CONTRACT_VERSION : String := "0.2.0"

/-- `MIN_TIMEOUT` (`contract.rs`). -/
def MIN_TIMEOUT : Nat := 1

/-- `MAX_TIMEOUT` (`contract.rs`): one year in seconds. -/
def MAX_TIMEOUT : Nat := 31556926

/-- `InstantiateMsg` (`astro_ibc/src/controller.rs`). -/
structure InstantiateMsg where
  owner : String
  timeout : Nat
deriving DecidableEq, Repr

/-- `ExecuteMsg` (`astro_ibc/src/controller.rs`). -/
inductive ExecuteMsg where
  | ibcExecuteProposal (channelId : String) (proposalId : Nat)
      (messages : List ProposalMessage)
  | proposeNewOwner (owner : String) (expiresIn : Nat)
  | dropOwnershipProposal
  | claimOwnership
deriving DecidableEq, Repr

/-- `QueryMsg` as matched by `contract.rs` (`ProposalState` from the
package; `LastError` is matched in `contract.rs` and named by the
spec's query surface). -/
inductive QueryMsg where
  | proposalState (id : Nat)
  | lastError
deriving DecidableEq, Repr

/-- A query answer in structured form (`to_binary` of the answer is an
injective serialization). -/
inductive QueryAnswer where
  | proposalState (st : ProposalStatus)
  | lastError (e : String)
deriving DecidableEq, Repr

/-- `instantiate` (`contract.rs` lines 27–47): writes the cw2 version
tag, range-checks the timeout, validates the owner address and stores
the config. -/
def instantiate (api : Api) (s : Storage) (msg : InstantiateMsg) :
    Except ContractError (Storage × Response) :=
  let s1 := s.setContractVersion CONTRACT_NAME CONTRACT_VERSION
  if ¬(MIN_TIMEOUT ≤ msg.timeout ∧ msg.timeout ≤ MAX_TIMEOUT) then
    .error .timeoutLimitsError
  else
    match api msg.owner with
    | .error e => .error (.std e)
    | .ok owner =>
      let s2 := { s1 with config := some ⟨owner, msg.timeout⟩ }
      .ok (s2, Response.new.addAttribute "action" "instantiate")

/-- Modelled from the spec: `propose_new_owner` from
`astroport_governance::astroport::common` (not in the provided
sources). Owner-only; validates the candidate address and candidate ≠
current owner; stores `{candidate, now + validFor}` in seconds,
overwriting any prior proposal. -/
def proposeNewOwnerHelper (api : Api) (s : Storage) (info : MessageInfo)
    (env : Env) (newOwner : String) (expiresIn : Nat) (owner : String) :
    Except ContractError (Storage × Response) :=
  match api newOwner with
  | .error e => .error (.std e)
  | .ok newOwner =>
    if info.sender ≠ owner then
      .error (.std (.genericErr "Unauthorized"))
    else if newOwner = owner then
      .error (.std (.genericErr "New owner cannot be same"))
    else
      let s1 := { s with
        ownershipProposal := some ⟨newOwner, env.blockTime.seconds + expiresIn⟩ }
      .ok (s1, (Response.new.addAttribute "action" "propose_new_owner").addAttribute
            "new_owner" newOwner)

/-- Modelled from the spec: `drop_ownership_proposal` from
`astroport_governance::astroport::common` (not in the provided
sources). Owner-only; deletes the stored proposal; absence is not a
hard error. -/
def dropOwnershipProposalHelper (s : Storage) (info : MessageInfo)
    (owner : String) : Except ContractError (Storage × Response) :=
  if info.sender ≠ owner then
    .error (.std (.genericErr "Unauthorized"))
  else
    .ok ({ s with ownershipProposal := none },
      Response.new.addAttribute "action" "drop_ownership_proposal")

/-- Modelled from the spec: `claim_ownership` from
`astroport_governance::astroport::common` (not in the provided
sources). Candidate-only; fails if the proposal has expired; on success
deletes the proposal and runs the callback from `contract.rs` lines
102–109, which sets `Config.owner` to the candidate and changes nothing
else. -/
def claimOwnershipHelper (s : Storage) (info : MessageInfo) (env : Env) :
    Except ContractError (Storage × Response) :=
  match s.ownershipProposal with
  | none => .error (.std (.genericErr "Ownership proposal not found"))
  | some p =>
    if info.sender ≠ p.owner then
      .error (.std (.genericErr "Unauthorized"))
    else if p.ttl < env.blockTime.seconds then
      .error (.std (.genericErr "Ownership proposal expired"))
    else
      match s.config with
      | none => .error (.std (.notFound "Config"))
      | some c =>
        let s1 := { s with
          ownershipProposal := none,
          config := some { c with owner := p.owner } }
        .ok (s1, (Response.new.addAttribute "action" "claim_ownership").addAttribute
              "new_owner" p.owner)

/-- `execute` (`contract.rs` lines 50–113): loads the config, then
dispatches on the message. `IbcExecuteProposal` is owner-only, rejects
duplicate ids, emits one `SendPacket` with payload `IbcProposal {id,
messages}` and deadline `block time + config.timeout`, and records the
proposal `InProgress`. -/
def execute (api : Api) (s : Storage) (env : Env) (info : MessageInfo)
    (msg : ExecuteMsg) : Except ContractError (Storage × Response) :=
  match s.configLoad with
  | .error e => .error (.std e)
  | .ok config =>
    match msg with
    | .ibcExecuteProposal channelId proposalId messages =>
      if config.owner ≠ info.sender then
        .error .unauthorized
      else if s.proposalStateHas proposalId then
        .error (.proposalAlreadyExists proposalId)
      else
        let ibcMsg := CosmosMsg.ibcSendPacket channelId
          ⟨proposalId, messages⟩ (env.blockTime.plusSeconds config.timeout)
        let s1 := s.proposalStateSave proposalId .inProgress
        .ok (s1, ((Response.new.addMessage ibcMsg).addAttribute
              "action" "ibc_execute").addAttribute "channel" channelId)
    | .proposeNewOwner owner expiresIn =>
      proposeNewOwnerHelper api s info env owner expiresIn config.owner
    | .dropOwnershipProposal =>
      dropOwnershipProposalHelper s info config.owner
    | .claimOwnership =>
      claimOwnershipHelper s info env

/-- `query` (`contract.rs` lines 116–124): `ProposalState` loads the
entry (failing when absent); `LastError` loads the stored record with
`Item::load`, which fails when nothing was ever stored. -/
def query (s : Storage) (msg : QueryMsg) : Except ContractError QueryAnswer :=
  match msg with
  | .proposalState id =>
    match s.proposalStateLoad id with
    | .error e => .error (.std e)
    | .ok st => .ok (.proposalState st)
  | .lastError =>
    match s.lastErrorLoad with
    | .error e => .error (.std e)
    | .ok e => .ok (.lastError e)

/-- Modelled from the spec: `migrate_config`
(`contracts/controller/src/migration.rs` is not in the provided
sources). For the known transition it reads the old-shape config
record, builds the new-shape record preserving owner and timeout, and
persists it; on our storage model this keeps the config fields
unchanged and fails if no config record exists. -/
def migrateConfig (s : Storage) : Except ContractError Storage :=
  match s.config with
  | none => .error (.std (.notFound "Config"))
  | some c => .ok { s with config := some ⟨c.owner, c.timeout⟩ }

/-- `migrate` (`contract.rs` lines 127–145): reads the stored cw2 tag,
dispatches on `(name, version)` — only `("ibc-controller", "0.1.0")` is
supported — then updates the tag and reports prior/new name and
version. -/
def migrate (s : Storage) : Except ContractError (Storage × Response) :=
  match s.getContractVersion with
  | .error e => .error (.std e)
  | .ok cv =>
    if cv.contract = "ibc-controller" then
      if cv.version = "0.1.0" then
        match migrateConfig s with
        | .error e => .error e
        | .ok s1 =>
          let s2 := s1.setContractVersion CONTRACT_NAME CONTRACT_VERSION
          .ok (s2, ((((Response.new.addAttribute
                "previous_contract_name" cv.contract).addAttribute
                "previous_contract_version" cv.version).addAttribute
                "new_contract_name" CONTRACT_NAME).addAttribute
                "new_contract_version" CONTRACT_VERSION))
      else .error .migrationError
    else .error .migrationError

/-- Host commit semantics: the storage after an invocation is the
returned storage on success and the original storage on error (the host
discards the transaction's writes). -/
def stateAfter (s : Storage) (r : Except ContractError (Storage × Response)) :
    Storage :=
  match r with
  | .ok (s1, _) => s1
  | .error _ => s

/-- The packets an invocation emits: the response's messages on
success, nothing on error. -/
def packetsOf (r : Except ContractError (Storage × Response)) :
    List CosmosMsg :=
  match r with
  | .ok (_, resp) => resp.messages
  | .error _ => []

/-- A permissive address validator, used to evaluate the model on
concrete inputs. -/
def acceptAllApi : Api := fun a => .ok a

/-- An empty storage, before instantiation. -/
def emptyStorage : Storage := ⟨none, none, [], none, none⟩

/-- A sample instantiated storage for concrete evaluations: version tag
written, owner `"owner"`, timeout 360 seconds, no proposals yet. -/
def sampleStorage : Storage :=
  ⟨some ⟨"ibc-controller", "0.2.0"⟩, some ⟨"owner", 360⟩, [], none, none⟩

/-- C1: An owner-authorized `IbcExecuteProposal` with a fresh id emits
exactly one IBC packet to the given channel, whose payload is
`IbcProposal {id, messages}` with the messages verbatim in caller
order, whose deadline is the block time plus `Config.timeout`, and
records `ProposalState[id] = InProgress`. -/
theorem submit_fresh_emits_one_packet (api : Api) (s : Storage) (env : Env)
    (info : MessageInfo) (channelId : String) (proposalId : Nat)
    (messages : List ProposalMessage) (c : Config)
    (hc : s.config = some c)
    (hown : info.sender = c.owner)
    (hfresh : s.proposalStateHas proposalId = false) :
    ∃ s1 resp,
      execute api s env info
          (.ibcExecuteProposal channelId proposalId messages) = .ok (s1, resp) ∧
      resp.messages = [CosmosMsg.ibcSendPacket channelId
        ⟨proposalId, messages⟩ (env.blockTime.plusSeconds c.timeout)] ∧
      s1.proposalState.lookup proposalId = some .inProgress := by
  have h : execute api s env info
      (.ibcExecuteProposal channelId proposalId messages)
      = .ok (s.proposalStateSave proposalId .inProgress,
        ((Response.new.addMessage (CosmosMsg.ibcSendPacket channelId
            ⟨proposalId, messages⟩
            (env.blockTime.plusSeconds c.timeout))).addAttribute
          "action" "ibc_execute").addAttribute "channel" channelId) := by
    simp [execute, Storage.configLoad, hc, hown, hfresh]
  refine ⟨_, _, h, rfl, ?_⟩
  simp [Storage.proposalStateSave, List.lookup]

/-- C1 witness: a concrete owner-authorized submit on a fresh id. -/
theorem submit_fresh_emits_one_packet_witness :
    ∃ s1 resp,
      execute acceptAllApi sampleStorage ⟨⟨0⟩⟩ ⟨"owner"⟩
          (.ibcExecuteProposal "channel-0" 1 [⟨1, "bank_send"⟩]) = .ok (s1, resp) ∧
      resp.messages = [CosmosMsg.ibcSendPacket "channel-0"
        ⟨1, [⟨1, "bank_send"⟩]⟩ (Timestamp.plusSeconds ⟨0⟩ 360)] ∧
      s1.proposalState.lookup 1 = some .inProgress :=
  submit_fresh_emits_one_packet acceptAllApi sampleStorage ⟨⟨0⟩⟩ ⟨"owner"⟩
    "channel-0" 1 [⟨1, "bank_send"⟩] ⟨"owner", 360⟩ rfl rfl rfl

/-- C2: If a `ProposalState` entry for the id already exists (in any
state), an owner-authorized `IbcExecuteProposal` with that id fails
with `ProposalAlreadyExists` carrying the id, emits no packet, and the
committed storage — in particular the existing entry — is unchanged. -/
theorem submit_duplicate_fails (api : Api) (s : Storage) (env : Env)
    (info : MessageInfo) (channelId : String) (proposalId : Nat)
    (messages : List ProposalMessage) (c : Config)
    (hc : s.config = some c)
    (hown : info.sender = c.owner)
    (hdup : s.proposalStateHas proposalId = true) :
    execute api s env info
        (.ibcExecuteProposal channelId proposalId messages)
      = .error (.proposalAlreadyExists proposalId) ∧
    stateAfter s (execute api s env info
        (.ibcExecuteProposal channelId proposalId messages)) = s ∧
    packetsOf (execute api s env info
        (.ibcExecuteProposal channelId proposalId messages)) = [] := by
  have h : execute api s env info
      (.ibcExecuteProposal channelId proposalId messages)
      = .error (.proposalAlreadyExists proposalId) := by
    simp [execute, Storage.configLoad, hc, hown, hdup]
  exact ⟨h, by rw [h]; rfl, by rw [h]; rfl⟩

/-- C2 witness: submitting id 1 again right after it was recorded
`InProgress` fails with the duplicate error and changes nothing. -/
theorem submit_duplicate_fails_witness :
    execute acceptAllApi
        ⟨some ⟨"ibc-controller", "0.2.0"⟩, some ⟨"owner", 360⟩,
          [(1, .inProgress)], none, none⟩ ⟨⟨0⟩⟩ ⟨"owner"⟩
        (.ibcExecuteProposal "channel-0" 1 [])
      = .error (.proposalAlreadyExists 1) ∧
    stateAfter
        ⟨some ⟨"ibc-controller", "0.2.0"⟩, some ⟨"owner", 360⟩,
          [(1, .inProgress)], none, none⟩
        (execute acceptAllApi
          ⟨some ⟨"ibc-controller", "0.2.0"⟩, some ⟨"owner", 360⟩,
            [(1, .inProgress)], none, none⟩ ⟨⟨0⟩⟩ ⟨"owner"⟩
          (.ibcExecuteProposal "channel-0" 1 []))
      = ⟨some ⟨"ibc-controller", "0.2.0"⟩, some ⟨"owner", 360⟩,
          [(1, .inProgress)], none, none⟩ ∧
    packetsOf (execute acceptAllApi
        ⟨some ⟨"ibc-controller", "0.2.0"⟩, some ⟨"owner", 360⟩,
          [(1, .inProgress)], none, none⟩ ⟨⟨0⟩⟩ ⟨"owner"⟩
        (.ibcExecuteProposal "channel-0" 1 [])) = [] :=
  submit_duplicate_fails acceptAllApi
    ⟨some ⟨"ibc-controller", "0.2.0"⟩, some ⟨"owner", 360⟩,
      [(1, .inProgress)], none, none⟩ ⟨⟨0⟩⟩ ⟨"owner"⟩
    "channel-0" 1 [] ⟨"owner", 360⟩ rfl rfl rfl

/-- C3: `instantiate` fails with `TimeoutLimitsError` for every timeout
outside `[1, 31556926]`; for every timeout inside the interval and a
well-formed owner address it succeeds and stores the supplied timeout
verbatim in the config. -/
theorem instantiate_timeout_range (api : Api) (s : Storage)
    (msg : InstantiateMsg) :
    (¬(MIN_TIMEOUT ≤ msg.timeout ∧ msg.timeout ≤ MAX_TIMEOUT) →
      instantiate api s msg = .error .timeoutLimitsError) ∧
    (∀ a, MIN_TIMEOUT ≤ msg.timeout → msg.timeout ≤ MAX_TIMEOUT →
      api msg.owner = .ok a →
      ∃ resp, instantiate api s msg
          = .ok ({ s.setContractVersion CONTRACT_NAME CONTRACT_VERSION with
              config := some ⟨a, msg.timeout⟩ }, resp)) := by
  constructor
  · intro hout
    simp [instantiate, hout]
  · intro a h1 h2 hapi
    refine ⟨Response.new.addAttribute "action" "instantiate", ?_⟩
    simp [instantiate, h1, h2, hapi]

/-- C3 witness: timeout 0 is rejected and timeout 360 is stored
verbatim. -/
theorem instantiate_timeout_range_witness :
    instantiate acceptAllApi emptyStorage ⟨"owner", 0⟩
        = .error .timeoutLimitsError ∧
    ∃ resp, instantiate acceptAllApi emptyStorage ⟨"owner", 360⟩
        = .ok ({ emptyStorage.setContractVersion CONTRACT_NAME CONTRACT_VERSION
            with config := some ⟨"owner", 360⟩ }, resp) :=
  ⟨(instantiate_timeout_range acceptAllApi emptyStorage ⟨"owner", 0⟩).1
      (by decide),
    (instantiate_timeout_range acceptAllApi emptyStorage ⟨"owner", 360⟩).2
      "owner" (by decide) (by decide) rfl⟩

/-- C4: An `IbcExecuteProposal` by any sender other than `Config.owner`
fails with `Unauthorized` and leaves the committed storage unchanged,
emitting nothing. -/
theorem submit_nonowner_unauthorized (api : Api) (s : Storage) (env : Env)
    (info : MessageInfo) (channelId : String) (proposalId : Nat)
    (messages : List ProposalMessage) (c : Config)
    (hc : s.config = some c)
    (hown : info.sender ≠ c.owner) :
    execute api s env info
        (.ibcExecuteProposal channelId proposalId messages)
      = .error .unauthorized ∧
    stateAfter s (execute api s env info
        (.ibcExecuteProposal channelId proposalId messages)) = s ∧
    packetsOf (execute api s env info
        (.ibcExecuteProposal channelId proposalId messages)) = [] := by
  have hne : c.owner ≠ info.sender := fun h => hown h.symm
  have h : execute api s env info
      (.ibcExecuteProposal channelId proposalId messages)
      = .error .unauthorized := by
    simp [execute, Storage.configLoad, hc, hne]
  exact ⟨h, by rw [h]; rfl, by rw [h]; rfl⟩

/-- C4 witness: a submit by `"mallory"` against owner `"owner"` is
rejected unchanged. -/
theorem submit_nonowner_unauthorized_witness :
    execute acceptAllApi sampleStorage ⟨⟨0⟩⟩ ⟨"mallory"⟩
        (.ibcExecuteProposal "channel-0" 1 []) = .error .unauthorized ∧
    stateAfter sampleStorage (execute acceptAllApi sampleStorage ⟨⟨0⟩⟩
        ⟨"mallory"⟩ (.ibcExecuteProposal "channel-0" 1 []))
      = sampleStorage ∧
    packetsOf (execute acceptAllApi sampleStorage ⟨⟨0⟩⟩ ⟨"mallory"⟩
        (.ibcExecuteProposal "channel-0" 1 [])) = [] :=
  submit_nonowner_unauthorized acceptAllApi sampleStorage ⟨⟨0⟩⟩ ⟨"mallory"⟩
    "channel-0" 1 [] ⟨"owner", 360⟩ rfl (by decide)

/-- C5: Any invocation of `instantiate`, `execute` or `migrate` that
returns an error commits no storage change (the storage after the
invocation equals the storage before) and emits no packet; in
particular a rejected instantiate leaves no version tag behind. -/
theorem entry_point_errors_atomic (api : Api) (s : Storage) (env : Env)
    (info : MessageInfo) (imsg : InstantiateMsg) (emsg : ExecuteMsg) :
    (∀ e, instantiate api s imsg = .error e →
      stateAfter s (instantiate api s imsg) = s ∧
      packetsOf (instantiate api s imsg) = []) ∧
    (∀ e, execute api s env info emsg = .error e →
      stateAfter s (execute api s env info emsg) = s ∧
      packetsOf (execute api s env info emsg) = []) ∧
    (∀ e, migrate s = .error e →
      stateAfter s (migrate s) = s ∧ packetsOf (migrate s) = []) := by
  refine ⟨fun e h => ?_, fun e h => ?_, fun e h => ?_⟩ <;>
    rw [h] <;> exact ⟨rfl, rfl⟩

/-- C5 witness: the instantiate rejected for timeout 0 commits nothing,
so the empty storage still has no version tag. -/
theorem entry_point_errors_atomic_witness :
    stateAfter emptyStorage
        (instantiate acceptAllApi emptyStorage ⟨"owner", 0⟩) = emptyStorage ∧
    packetsOf (instantiate acceptAllApi emptyStorage ⟨"owner", 0⟩) = [] :=
  (entry_point_errors_atomic acceptAllApi emptyStorage ⟨⟨0⟩⟩ ⟨"owner"⟩
      ⟨"owner", 0⟩ .claimOwnership).1 .timeoutLimitsError rfl

/-- C6: If the stored version tag's `(name, version)` pair differs from
the single supported pair `("ibc-controller", "0.1.0")`, `migrate`
fails with `MigrationError` and commits no storage change; the
already-current tag `("ibc-controller", CONTRACT_VERSION)` is such a
pair, so re-running migration is rejected. -/
theorem migrate_unsupported_pair_fails (s : Storage) (cv : ContractVersion)
    (hcv : s.contractVersion = some cv)
    (hout : cv.contract ≠ "ibc-controller" ∨ cv.version ≠ "0.1.0") :
    migrate s = .error .migrationError ∧
    stateAfter s (migrate s) = s := by
  have h : migrate s = .error .migrationError := by
    rcases hout with hname | hver
    · simp [migrate, Storage.getContractVersion, hcv, hname]
    · by_cases hname : cv.contract = "ibc-controller" <;>
        simp [migrate, Storage.getContractVersion, hcv, hname, hver]
  exact ⟨h, by rw [h]; rfl⟩

/-- C6 witness: migrating a contract whose stored tag is the current
`("ibc-controller", "0.2.0")` is rejected with `MigrationError` and
changes nothing. -/
theorem migrate_unsupported_pair_fails_witness :
    migrate sampleStorage = .error .migrationError ∧
    stateAfter sampleStorage (migrate sampleStorage) = sampleStorage :=
  migrate_unsupported_pair_fails sampleStorage ⟨"ibc-controller", "0.2.0"⟩
    rfl (Or.inr (by decide))

/-- C7: A successful `ClaimOwnership` was sent by the proposed
candidate, sets `Config.owner` to that candidate, deletes the ownership
proposal in the same invocation, and leaves `Config.timeout` and every
other storage component unchanged. -/
theorem claim_ownership_frame (api : Api) (s : Storage) (env : Env)
    (info : MessageInfo) (s1 : Storage) (resp : Response) (c : Config)
    (hc : s.config = some c)
    (h : execute api s env info .claimOwnership = .ok (s1, resp)) :
    ∃ p, s.ownershipProposal = some p ∧
      info.sender = p.owner ∧
      s1.config = some ⟨p.owner, c.timeout⟩ ∧
      s1.ownershipProposal = none ∧
      s1.proposalState = s.proposalState ∧
      s1.lastError = s.lastError ∧
      s1.contractVersion = s.contractVersion := by
  simp only [execute, Storage.configLoad, hc, claimOwnershipHelper] at h
  split at h
  · exact absurd h (by simp)
  · rename_i p hp
    refine ⟨p, hp, ?_⟩
    split at h
    · exact absurd h (by simp)
    · rename_i hsend
      split at h
      · exact absurd h (by simp)
      · simp only [Except.ok.injEq, Prod.mk.injEq] at h
        obtain ⟨hs, -⟩ := h
        subst hs
        exact ⟨not_not.mp hsend, rfl, rfl, rfl, rfl, rfl⟩

/-- C7 witness: the candidate `"bob"` claims ownership before expiry;
the owner becomes `"bob"`, the proposal is gone, the timeout stays
360. -/
theorem claim_ownership_frame_witness :
    ∃ p, Storage.ownershipProposal
        ⟨some ⟨"ibc-controller", "0.2.0"⟩, some ⟨"owner", 360⟩, [],
          some ⟨"bob", 100⟩, none⟩ = some p ∧
      MessageInfo.sender ⟨"bob"⟩ = p.owner ∧
      Storage.config
          ⟨some ⟨"ibc-controller", "0.2.0"⟩, some ⟨"bob", 360⟩, [],
            none, none⟩ = some ⟨p.owner, 360⟩ ∧
      Storage.ownershipProposal
          ⟨some ⟨"ibc-controller", "0.2.0"⟩, some ⟨"bob", 360⟩, [],
            none, none⟩ = none ∧
      Storage.proposalState
          ⟨some ⟨"ibc-controller", "0.2.0"⟩, some ⟨"bob", 360⟩, [],
            none, none⟩ = Storage.proposalState
          ⟨some ⟨"ibc-controller", "0.2.0"⟩, some ⟨"owner", 360⟩, [],
            some ⟨"bob", 100⟩, none⟩ ∧
      Storage.lastError
          ⟨some ⟨"ibc-controller", "0.2.0"⟩, some ⟨"bob", 360⟩, [],
            none, none⟩ = Storage.lastError
          ⟨some ⟨"ibc-controller", "0.2.0"⟩, some ⟨"owner", 360⟩, [],
            some ⟨"bob", 100⟩, none⟩ ∧
      Storage.contractVersion
          ⟨some ⟨"ibc-controller", "0.2.0"⟩, some ⟨"bob", 360⟩, [],
            none, none⟩ = Storage.contractVersion
          ⟨some ⟨"ibc-controller", "0.2.0"⟩, some ⟨"owner", 360⟩, [],
            some ⟨"bob", 100⟩, none⟩ :=
  claim_ownership_frame acceptAllApi
    ⟨some ⟨"ibc-controller", "0.2.0"⟩, some ⟨"owner", 360⟩, [],
      some ⟨"bob", 100⟩, none⟩ ⟨⟨0⟩⟩ ⟨"bob"⟩
    ⟨some ⟨"ibc-controller", "0.2.0"⟩, some ⟨"bob", 360⟩, [], none, none⟩
    ((Response.new.addAttribute "action" "claim_ownership").addAttribute
      "new_owner" "bob")
    ⟨"owner", 360⟩ rfl rfl

/-- C8 counterexample: on an instantiated storage where no error record
was ever stored, the `LastError` query fails with a not-found error —
it does not return a "none" marker. -/
theorem last_error_query_counterexample :
    sampleStorage.lastError = none ∧
    query sampleStorage .lastError = .error (.std (.notFound "LastError")) :=
  ⟨rfl, rfl⟩

/-- C8 (amended): the `LastError` query returns the stored error record
when one exists; when no record has ever been stored it fails with a
not-found error rather than returning a "none" marker. -/
theorem last_error_query_behavior (s : Storage) :
    (∀ e, s.lastError = some e → query s .lastError = .ok (.lastError e)) ∧
    (s.lastError = none →
      query s .lastError = .error (.std (.notFound "LastError"))) := by
  constructor
  · intro e he
    simp [query, Storage.lastErrorLoad, he]
  · intro he
    simp [query, Storage.lastErrorLoad, he]

/-- C8 witness: both branches at concrete storages — a stored `"boom"`
record is returned, and the record-free storage makes the query fail. -/
theorem last_error_query_behavior_witness :
    query ⟨none, none, [], none, some "boom"⟩ .lastError
        = .ok (.lastError "boom") ∧
    query sampleStorage .lastError = .error (.std (.notFound "LastError")) :=
  ⟨(last_error_query_behavior ⟨none, none, [], none, some "boom"⟩).1
      "boom" rfl,
    (last_error_query_behavior sampleStorage).2 rfl⟩

/-- C9 counterexample: a concrete successful submit of proposal id 1;
the response's attributes are exactly `action` and `channel` — no
attribute carries the proposal id (no attribute value equals `"1"`). -/
theorem submit_attributes_counterexample :
    execute acceptAllApi sampleStorage ⟨⟨0⟩⟩ ⟨"owner"⟩
        (.ibcExecuteProposal "channel-0" 1 [])
      = .ok (⟨some ⟨"ibc-controller", "0.2.0"⟩, some ⟨"owner", 360⟩,
          [(1, .inProgress)], none, none⟩,
        ⟨[.ibcSendPacket "channel-0" ⟨1, []⟩ ⟨360000000000⟩],
          [("action", "ibc_execute"), ("channel", "channel-0")]⟩) ∧
    (([("action", "ibc_execute"), ("channel", "channel-0")].all
        fun kv => kv.2 != "1") = true) :=
  ⟨rfl, rfl⟩

/-- C9 (amended): every successful `IbcExecuteProposal` returns a
response whose attributes are exactly the action name and the channel;
the proposal id is not among them. -/
theorem submit_attributes (api : Api) (s : Storage) (env : Env)
    (info : MessageInfo) (channelId : String) (proposalId : Nat)
    (messages : List ProposalMessage) (s1 : Storage) (resp : Response)
    (h : execute api s env info
        (.ibcExecuteProposal channelId proposalId messages) = .ok (s1, resp)) :
    resp.attributes = [("action", "ibc_execute"), ("channel", channelId)] := by
  simp only [execute] at h
  split at h
  · exact absurd h (by simp)
  · split at h
    · exact absurd h (by simp)
    · split at h
      · exact absurd h (by simp)
      · simp only [Except.ok.injEq, Prod.mk.injEq] at h
        obtain ⟨-, hr⟩ := h
        subst hr
        rfl

/-- C9 amended-claim witness: attributes of the concrete submit above. -/
theorem submit_attributes_witness :
    Response.attributes
        ⟨[.ibcSendPacket "channel-0" ⟨1, []⟩ ⟨360000000000⟩],
          [("action", "ibc_execute"), ("channel", "channel-0")]⟩
      = [("action", "ibc_execute"), ("channel", "channel-0")] :=
  submit_attributes acceptAllApi sampleStorage ⟨⟨0⟩⟩ ⟨"owner"⟩
    "channel-0" 1 []
    ⟨some ⟨"ibc-controller", "0.2.0"⟩, some ⟨"owner", 360⟩,
      [(1, .inProgress)], none, none⟩
    ⟨[.ibcSendPacket "channel-0" ⟨1, []⟩ ⟨360000000000⟩],
      [("action", "ibc_execute"), ("channel", "channel-0")]⟩ rfl

/-- C10: an owner-authorized `IbcExecuteProposal` with a fresh id and
an empty messages list succeeds: it emits one packet whose payload is
`IbcProposal {id, []}` and records `ProposalState[id] = InProgress` —
there is no non-emptiness check on the messages list. -/
theorem submit_empty_messages_ok (api : Api) (s : Storage) (env : Env)
    (info : MessageInfo) (channelId : String) (proposalId : Nat) (c : Config)
    (hc : s.config = some c)
    (hown : info.sender = c.owner)
    (hfresh : s.proposalStateHas proposalId = false) :
    ∃ s1 resp,
      execute api s env info
          (.ibcExecuteProposal channelId proposalId []) = .ok (s1, resp) ∧
      resp.messages = [CosmosMsg.ibcSendPacket channelId
        ⟨proposalId, []⟩ (env.blockTime.plusSeconds c.timeout)] ∧
      s1.proposalState.lookup proposalId = some .inProgress := by
  have h : execute api s env info
      (.ibcExecuteProposal channelId proposalId [])
      = .ok (s.proposalStateSave proposalId .inProgress,
        ((Response.new.addMessage (CosmosMsg.ibcSendPacket channelId
            ⟨proposalId, []⟩
            (env.blockTime.plusSeconds c.timeout))).addAttribute
          "action" "ibc_execute").addAttribute "channel" channelId) := by
    simp [execute, Storage.configLoad, hc, hown, hfresh]
  refine ⟨_, _, h, rfl, ?_⟩
  simp [Storage.proposalStateSave, List.lookup]

/-- C10 witness: a concrete empty-messages submit on a fresh id. -/
theorem submit_empty_messages_ok_witness :
    ∃ s1 resp,
      execute acceptAllApi sampleStorage ⟨⟨0⟩⟩ ⟨"owner"⟩
          (.ibcExecuteProposal "channel-0" 7 []) = .ok (s1, resp) ∧
      resp.messages = [CosmosMsg.ibcSendPacket "channel-0"
        ⟨7, []⟩ (Timestamp.plusSeconds ⟨0⟩ 360)] ∧
      s1.proposalState.lookup 7 = some .inProgress :=
  submit_empty_messages_ok acceptAllApi sampleStorage ⟨⟨0⟩⟩ ⟨"owner"⟩
    "channel-0" 7 ⟨"owner", 360⟩ rfl rfl rfl

end IbcController
